import Mathlib

/-!
Verification of the interactive CLI prompt examples (Go).

The repository contains four small example programs:
  * `StringPrompt`  — text input prompt (reads a line from stdin, trims it);
  * `PasswordPrompt` — hidden input prompt (via `term.ReadPassword`);
  * `YesNoPrompt`   — yes/no confirmation prompt with a default;
  * `Checkboxes`    — multi-select adapter over the external `survey` library.

We embed the string-level behaviour of these functions shallowly:
strings are `List Char`, the stdin stream is the list of characters not
yet consumed, loops take an explicit fuel argument (`val = none` means the
loop performed that many iterations without returning), and the bytes each
function writes to standard error and to standard output are returned as
explicit traces.
-/

namespace CLIPrompts

/-- Characters treated as whitespace by Go's `strings.TrimSpace`
(`unicode.IsSpace`), restricted to the Latin-1 range; all inputs in this
development are ASCII, where this coincides with Go exactly. -/
def isSpace (c : Char) : Bool :=
  c = ' ' || c = '\t' || c = '\n' || c = '\x0b' || c = '\x0c' || c = '\r' ||
  c = '\x85' || c = '\xa0'

/-- Embedding of Go `strings.TrimSpace`: remove leading and trailing
whitespace (here: trailing first, then leading — the two orders agree). -/
def trimSpace (s : List Char) : List Char :=
  List.dropWhile isSpace (List.reverse (List.dropWhile isSpace (List.reverse s)))

/-- Embedding of Go `strings.ToLower` on a single character, for the ASCII
range (the only range exercised by the programs). -/
def toLowerChar (c : Char) : Char :=
  if 'A' ≤ c ∧ c ≤ 'Z' then Char.ofNat (c.toNat + 32) else c

/-- Embedding of Go `strings.ToLower` (ASCII range). -/
def toLower (s : List Char) : List Char :=
  List.map toLowerChar s

/-- Convenience: the character list of a string literal. -/
def str (s : String) : List Char :=
  s.toList

/-- Embedding of `bufio.Reader.ReadString('\n')` on the remaining stream:
returns the bytes read up to and including the first line feed (the whole
remainder if the stream ends first; the empty string at end-of-stream),
together with the stream left over.  The Go calls discard the error value,
so it is not modelled: an end-of-stream read is exactly the `([], [])`
answer on the empty remainder. -/
def readStringNL : List Char → List Char × List Char
  | [] => ([], [])
  | c :: cs =>
    if c = '\n' then ([c], cs)
    else
      let p := readStringNL cs
      (c :: p.1, p.2)

/-- Result of running a prompt: `val = some v` means the function returned
`v`; `val = none` means the loop ran for the whole fuel budget without
returning.  `errOut` and `stdOut` are the bytes written to standard error
and standard output during those iterations. -/
structure RunResult (α : Type) where
  val : Option α
  errOut : List Char
  stdOut : List Char
deriving DecidableEq

/-- Embedding of `StringPrompt` (text input example): per iteration, write
`label + " "` to standard error, read one line with `ReadString('\n')`,
break as soon as the raw read (newline included) is non-empty, and finally
return `strings.TrimSpace` of it.  Nothing is written to standard output. -/
def stringPromptLoop (label : List Char) : Nat → List Char → RunResult (List Char)
  | 0, _ => ⟨none, [], []⟩
  | Nat.succ n, input =>
    let out := label ++ [' ']
    if (readStringNL input).1 ≠ [] then
      ⟨some (trimSpace (readStringNL input).1), out, []⟩
    else
      let r := stringPromptLoop label n (readStringNL input).2
      ⟨r.val, out ++ r.errOut, r.stdOut⟩

/-- The `(Y/n)` / `(y/N)` hint string of `YesNoPrompt`. -/
def yesNoChoices (defv : Bool) : List Char :=
  if defv then str "Y/n" else str "y/N"

/-- Embedding of `YesNoPrompt` (confirmation example): per iteration, write
`label ++ " (" ++ choices ++ ") "` to standard error, read one line, trim
it; return the default on an empty trimmed line, `true` on lowercased
`"y"`/`"yes"`, `false` on `"n"`/`"no"`, and loop otherwise. -/
def yesNoPromptLoop (label : List Char) (defv : Bool) : Nat → List Char → RunResult Bool
  | 0, _ => ⟨none, [], []⟩
  | Nat.succ n, input =>
    let out := label ++ str " (" ++ yesNoChoices defv ++ str ") "
    let s := trimSpace (readStringNL input).1
    if s = [] then ⟨some defv, out, []⟩
    else if toLower s = str "y" ∨ toLower s = str "yes" then ⟨some true, out, []⟩
    else if toLower s = str "n" ∨ toLower s = str "no" then ⟨some false, out, []⟩
    else
      let r := yesNoPromptLoop label defv n (readStringNL input).2
      ⟨r.val, out ++ r.errOut, r.stdOut⟩

/-- The terminal seen by `term.ReadPassword`: either an interactive
terminal holding the (finitely many) secret lines the user will type, or a
non-terminal stdin (pipe/file). -/
inductive TermInput where
  | tty (lines : List (List Char)) : TermInput
  | notTTY : TermInput
deriving DecidableEq

/-- Embedding of `term.ReadPassword(int(syscall.Stdin))` as called by
`PasswordPrompt`.  On a non-terminal it fails, and on an exhausted terminal
nothing is read: in both cases the returned byte slice is empty.  The Go
call discards the error value, so only the bytes are modelled. -/
def readPassword : TermInput → List Char × TermInput
  | TermInput.notTTY => ([], TermInput.notTTY)
  | TermInput.tty [] => ([], TermInput.tty [])
  | TermInput.tty (l :: ls) => (l, TermInput.tty ls)

/-- Embedding of `PasswordPrompt` (hidden input example): per iteration,
write `label + " "` to standard error and call `term.ReadPassword`; break
as soon as the returned bytes are non-empty.  After the loop,
`fmt.Println()` writes a newline to standard output, and the bytes are
returned verbatim (no trimming). -/
def passwordPromptLoop (label : List Char) : Nat → TermInput → RunResult (List Char)
  | 0, _ => ⟨none, [], []⟩
  | Nat.succ n, t =>
    let out := label ++ [' ']
    if (readPassword t).1 ≠ [] then
      ⟨some (readPassword t).1, out, ['\n']⟩
    else
      let r := passwordPromptLoop label n (readPassword t).2
      ⟨r.val, out ++ r.errOut, r.stdOut⟩

/-- Embedding of `Checkboxes` (multi-select example): `res` is initialised
to the empty slice, `survey.AskOne` (the external collaborator, modelled as
a function from the label and options to `some` chosen subset or `none` on
failure) is invoked with the label and options passed through unchanged and
its error discarded, and `res` is returned — the collaborator's answer on
success, the initial empty list otherwise. -/
def Checkboxes (label : List Char) (opts : List (List Char))
    (collab : List Char → List (List Char) → Option (List (List Char))) :
    List (List Char) :=
  match collab label opts with
  | some res => res
  | none => []

/-! ### Helper lemmas -/

/-- `ReadString('\n')` on a stream starting with a newline-free line:
the whole line plus its newline is consumed. -/
theorem readStringNL_line (line rest : List Char) (h : '\n' ∉ line) :
    readStringNL (line ++ '\n' :: rest) = (line ++ ['\n'], rest) := by
  induction line with
  | nil => simp [readStringNL]
  | cons c cs ih =>
    have hc : c ≠ '\n' := fun e => h (e ▸ List.mem_cons_self c cs)
    have hcs : '\n' ∉ cs := fun m => h (List.mem_cons_of_mem c m)
    simp [readStringNL, hc, ih hcs]

/-- Trimming is unaffected by a trailing newline. -/
theorem trimSpace_append_nl (l : List Char) :
    trimSpace (l ++ ['\n']) = trimSpace l := by
  simp [trimSpace, List.dropWhile, isSpace]

/-- Trimming a string of whitespace gives the empty string. -/
theorem trimSpace_all_space (l : List Char) (h : ∀ c ∈ l, isSpace c) :
    trimSpace l = [] := by
  have h1 : List.dropWhile isSpace (List.reverse l) = [] := by
    rw [List.dropWhile_eq_nil_iff]
    intro c hc
    exact h c (List.mem_reverse.mp hc)
  simp [trimSpace, h1]

/-- A lowercased string equal to a non-empty literal is non-empty. -/
theorem toLower_ne_nil (l : List Char) (c : Char) (cs : List Char)
    (h : toLower l = c :: cs) : l ≠ [] := by
  intro e
  rw [e] at h
  simp [toLower] at h

/-- `StringPrompt` never terminates on an already-exhausted stream: every
read returns the empty string, the break condition never fires. -/
theorem stringPromptLoop_nil_val (label : List Char) (n : Nat) :
    (stringPromptLoop label n []).val = none := by
  induction n with
  | zero => rfl
  | succ n ih => simp [stringPromptLoop, readStringNL, ih]

/-- One unfolding of `YesNoPrompt`'s loop on a stream whose first line is
newline-free: the read consumes exactly that line, and the dispatch is on
its trimmed form. -/
theorem yesNo_step (label : List Char) (defv : Bool) (line rest : List Char) (n : Nat)
    (hnl : '\n' ∉ line) :
    yesNoPromptLoop label defv (n + 1) (line ++ '\n' :: rest) =
      (if trimSpace line = [] then
        ⟨some defv, label ++ str " (" ++ yesNoChoices defv ++ str ") ", []⟩
      else if toLower (trimSpace line) = str "y" ∨ toLower (trimSpace line) = str "yes" then
        ⟨some true, label ++ str " (" ++ yesNoChoices defv ++ str ") ", []⟩
      else if toLower (trimSpace line) = str "n" ∨ toLower (trimSpace line) = str "no" then
        ⟨some false, label ++ str " (" ++ yesNoChoices defv ++ str ") ", []⟩
      else
        ⟨(yesNoPromptLoop label defv n rest).val,
          (label ++ str " (" ++ yesNoChoices defv ++ str ") ") ++
            (yesNoPromptLoop label defv n rest).errOut,
          (yesNoPromptLoop label defv n rest).stdOut⟩) := by
  simp only [yesNoPromptLoop]
  rw [readStringNL_line line rest hnl]
  simp only [trimSpace_append_nl]

/-! ### Claim theorems -/

/-- Claim C1, counterexample: on the stream consisting of one empty line
followed by end-of-stream, `StringPrompt` returns a value (the empty
string) after a single read — the raw read `"\n"` is non-empty, so the
break fires — and `YesNoPrompt` likewise returns its default value.
Neither fails: the functions return plain `string`/`bool` and no
`InputExhausted` error exists in the code. -/
theorem c1_cex :
    (stringPromptLoop (str "What is your name?") 1 (str "\n")).val = some [] ∧
    (yesNoPromptLoop (str "ok?") true 1 (str "\n")).val = some true :=
  ⟨rfl, rfl⟩

/-- Claim C1, amended: on a backing stream of `k` empty lines followed by
end-of-stream, `YesNoPrompt` terminates within one iteration and returns
the default value (also at `k = 0`); `StringPrompt` terminates within one
iteration and returns the empty string when at least one empty line is
present, but on the immediately exhausted stream (`k = 0`) it loops
forever — no iteration bound makes it return.  Neither function can fail
with `InputExhausted`: no such error exists in the code. -/
theorem c1_amended :
    (∀ (label : List Char) (defv : Bool) (n k : Nat),
      (yesNoPromptLoop label defv (n + 1) (List.replicate k '\n')).val = some defv) ∧
    (∀ (label : List Char) (n k : Nat), 1 ≤ k →
      (stringPromptLoop label (n + 1) (List.replicate k '\n')).val = some []) ∧
    (∀ (label : List Char) (n : Nat), (stringPromptLoop label n []).val = none) := by
  refine ⟨?_, ?_, ?_⟩
  · intro label defv n k
    cases k with
    | zero => rfl
    | succ k => rfl
  · intro label n k hk
    cases k with
    | zero => exact absurd hk (by decide)
    | succ k => rfl
  · intro label n
    exact stringPromptLoop_nil_val label n

/-- Claim C1, witness for the amended theorem's hypothesis `1 ≤ k`. -/
theorem c1_witness :
    1 ≤ 2 ∧ (stringPromptLoop (str "q") 1 (List.replicate 2 '\n')).val = some [] :=
  ⟨by decide, c1_amended.2.1 (str "q") 0 2 (by decide)⟩

/-- Claim C3, counterexample: on the stream `"\nhello\n"` (empty first
line, then a non-empty line), `StringPrompt` returns the empty string at
once instead of re-prompting and returning `"hello"`: the raw read `"\n"`
is non-empty, so the loop breaks and `TrimSpace "\n" = ""` is returned
while more input is still available. -/
theorem c3_cex :
    (stringPromptLoop (str "q") 2 (str "\nhello\n")).val = some [] ∧
    some ([] : List Char) ≠ some (str "hello") :=
  ⟨rfl, by decide⟩

/-- Claim C3, amended: `StringPrompt` returns the trimmed first line of
the stream, whatever it is — for an empty first line that is the empty
string, returned immediately rather than after a retry.  The loop only
repeats when the reader returns an entirely empty raw string, which
happens only at end-of-stream. -/
theorem c3_amended (label line rest : List Char) (n : Nat) (hnl : '\n' ∉ line) :
    (stringPromptLoop label (n + 1) (line ++ '\n' :: rest)).val = some (trimSpace line) := by
  simp only [stringPromptLoop]
  rw [readStringNL_line line rest hnl]
  simp [trimSpace_append_nl]

/-- Claim C3, witness: the amended theorem at label `"q"`, first line
`"abc"`, remainder `"xyz"`. -/
theorem c3_witness :
    (stringPromptLoop (str "q") 1 (str "abc" ++ '\n' :: str "xyz")).val = some (str "abc") :=
  (c3_amended (str "q") (str "abc") (str "xyz") 0 (by decide)).trans (by decide)

/-- Claim C6: for every label, `StringPrompt` on the stream `"abc\n"`
returns exactly `"abc"`, on `"  hello  \n"` returns `"hello"` (symmetric
trimming of leading and trailing whitespace), and on `"  a  b  \n"`
returns `"a  b"` (internal whitespace preserved). -/
theorem c6_trims_ends (label : List Char) :
    (stringPromptLoop label 1 (str "abc\n")).val = some (str "abc") ∧
    (stringPromptLoop label 1 (str "  hello  \n")).val = some (str "hello") ∧
    (stringPromptLoop label 1 (str "  a  b  \n")).val = some (str "a  b") :=
  ⟨rfl, rfl, rfl⟩

/-- Claim C2: for every label and default value, on a stream whose first
line is newline-free, `YesNoPrompt` (a) returns the default when the
trimmed line is empty — in particular when the submitted line is empty —
(b) returns `true` when the trimmed line lowercases to `"y"` or `"yes"`,
(c) returns `false` when it lowercases to `"n"` or `"no"`, and (d) on any
other line re-prompts and reads again: the outcome is that of the loop
running on the rest of the stream. -/
theorem c2_dispatch (label : List Char) (defv : Bool) (line rest : List Char) (n : Nat)
    (hnl : '\n' ∉ line) :
    (trimSpace line = [] →
      (yesNoPromptLoop label defv (n + 1) (line ++ '\n' :: rest)).val = some defv) ∧
    (toLower (trimSpace line) = str "y" ∨ toLower (trimSpace line) = str "yes" →
      (yesNoPromptLoop label defv (n + 1) (line ++ '\n' :: rest)).val = some true) ∧
    (toLower (trimSpace line) = str "n" ∨ toLower (trimSpace line) = str "no" →
      (yesNoPromptLoop label defv (n + 1) (line ++ '\n' :: rest)).val = some false) ∧
    (toLower (trimSpace line) ≠ str "y" → toLower (trimSpace line) ≠ str "yes" →
     toLower (trimSpace line) ≠ str "n" → toLower (trimSpace line) ≠ str "no" →
     trimSpace line ≠ [] →
      (yesNoPromptLoop label defv (n + 1) (line ++ '\n' :: rest)).val =
        (yesNoPromptLoop label defv n rest).val) := by
  rw [yesNo_step label defv line rest n hnl]
  refine ⟨?_, ?_, ?_, ?_⟩
  · intro h
    simp [h]
  · intro h
    have hne : trimSpace line ≠ [] := by
      rcases h with h | h
      · exact toLower_ne_nil _ 'y' [] h
      · exact toLower_ne_nil _ 'y' (str "es") h
    simp [hne, h]
  · intro h
    have hne : trimSpace line ≠ [] := by
      rcases h with h | h
      · exact toLower_ne_nil _ 'n' [] h
      · exact toLower_ne_nil _ 'n' (str "o") h
    rcases h with h | h <;>
      · simp [hne, h]
        rw [if_neg (by decide)]
  · intro h1 h2 h3 h4 h5
    simp [h1, h2, h3, h4, h5]

/-- Claim C2, witness: with label `"ok?"` and default `false`, the line
`"maybe"` re-prompts and the following line `"YES"` then yields `true`. -/
theorem c2_witness :
    (yesNoPromptLoop (str "ok?") false 2 (str "maybe" ++ '\n' :: str "YES\n")).val = some true := by
  rw [(c2_dispatch (str "ok?") false (str "maybe") (str "YES\n") 1
        (by decide)).2.2.2 (by decide) (by decide) (by decide) (by decide) (by decide)]
  decide

/-- Claim C9: `YesNoPrompt` trims the line before matching — for every
label, default, and remainder, the line `"  YES  "` returns `true`, and a
line made only of whitespace is treated as empty input and returns the
default value. -/
theorem c9_trims_input (label : List Char) (defv : Bool) (ws rest : List Char) (n : Nat)
    (hws : ∀ c ∈ ws, isSpace c) (hnl : '\n' ∉ ws) :
    (yesNoPromptLoop label defv (n + 1) (str "  YES  " ++ '\n' :: rest)).val = some true ∧
    (yesNoPromptLoop label defv (n + 1) (ws ++ '\n' :: rest)).val = some defv := by
  constructor
  · rw [yesNo_step label defv (str "  YES  ") rest n (by decide)]
    rfl
  · rw [yesNo_step label defv ws rest n hnl, if_pos (trimSpace_all_space ws hws)]

/-- Claim C9, witness: whitespace line `" \t "` with default `false`
returns `false`, and `"  YES  "` returns `true`. -/
theorem c9_witness :
    (yesNoPromptLoop (str "ok?") false 1 (str "  YES  " ++ '\n' :: [])).val = some true ∧
    (yesNoPromptLoop (str "ok?") false 1 (str " \t " ++ '\n' :: [])).val = some false := by
  have h1 := c9_trims_input (str "ok?") false (str " \t ") [] 0 (by decide) (by decide)
  exact ⟨h1.1, h1.2⟩

/-- Claim C4, counterexample: with non-interactive input, `PasswordPrompt`
does not fail with `NotATerminal` — it is still looping after three
iterations (each failed `ReadPassword` yields empty bytes, whose error is
discarded, so the loop retries) — and `Checkboxes` returns the empty list,
a normal value, when the collaborator fails on the non-terminal.  Neither
function has any error in its return type. -/
theorem c4_cex :
    (passwordPromptLoop (str "What is your password?") 3 TermInput.notTTY).val = none ∧
    Checkboxes (str "l") [str "A"] (fun _ _ => none) = [] :=
  ⟨rfl, rfl⟩

/-- Claim C4, amended: when the input is not an interactive terminal,
`PasswordPrompt` loops indefinitely — it returns nothing within any number
of iterations, because `term.ReadPassword`'s error is discarded and the
empty result retries — and `Checkboxes` discards the collaborator's error
and returns the empty list.  Neither fails with `NotATerminal`: no such
error path exists in the code. -/
theorem c4_amended :
    (∀ (label : List Char) (n : Nat),
      (passwordPromptLoop label n TermInput.notTTY).val = none) ∧
    (∀ (label : List Char) (opts : List (List Char)),
      Checkboxes label opts (fun _ _ => none) = []) := by
  constructor
  · intro label n
    induction n with
    | zero => rfl
    | succ n ih => simp [passwordPromptLoop, readPassword, ih]
  · intro label opts
    rfl

/-- Claim C5, counterexample: with the duplicate options
`["A", "B", "A"]`, `Checkboxes` does invoke the selection collaborator —
here a double that answers with the options it was handed — and returns
its answer instead of failing: the duplicates reach the collaborator
unchanged and no `InvalidOptions` error exists in the code. -/
theorem c5_cex :
    Checkboxes (str "l") [str "A", str "B", str "A"] (fun _ opts => some opts) =
      [str "A", str "B", str "A"] :=
  rfl

/-- Claim C5, amended: `Checkboxes` performs no duplicate validation at
all — whatever the options, duplicated or not, it passes the label and
options unchanged to the collaborator and returns whatever subset the
collaborator answers. -/
theorem c5_amended (label : List Char) (opts res : List (List Char))
    (collab : List Char → List (List Char) → Option (List (List Char)))
    (h : collab label opts = some res) :
    Checkboxes label opts collab = res := by
  simp [Checkboxes, h]

/-- Claim C5, witness: the amended theorem at the duplicate options
`["A", "B", "A"]` with a collaborator choosing the first option. -/
theorem c5_witness :
    Checkboxes (str "l") [str "A", str "B", str "A"] (fun _ opts => some (opts.take 1)) =
      [str "A"] :=
  c5_amended (str "l") [str "A", str "B", str "A"] [str "A"] _ rfl

/-- Claim C7, counterexample: after the hidden read succeeds,
`PasswordPrompt`'s `fmt.Println()` writes the cursor-advancing newline to
standard output, not to the error/status stream — standard output is not
left untouched. -/
theorem c7_cex :
    (passwordPromptLoop (str "pw") 1 (TermInput.tty [str "secret"])).stdOut = ['\n'] ∧
    (['\n'] : List Char) ≠ [] :=
  ⟨rfl, by decide⟩

/-- Claim C7, amended: `StringPrompt` and `YesNoPrompt` write their labels
and hints only to the error/status stream, leaving standard output
untouched on every run; `PasswordPrompt` writes its label to the
error/status stream too, but the trailing newline it emits after a
successful hidden read goes to standard output via `fmt.Println()`. -/
theorem c7_amended :
    (∀ (label : List Char) (n : Nat) (input : List Char),
      (stringPromptLoop label n input).stdOut = []) ∧
    (∀ (label : List Char) (defv : Bool) (n : Nat) (input : List Char),
      (yesNoPromptLoop label defv n input).stdOut = []) ∧
    (∀ (label s : List Char) (ls : List (List Char)) (n : Nat), s ≠ [] →
      (passwordPromptLoop label (n + 1) (TermInput.tty (s :: ls))).stdOut = ['\n']) := by
  refine ⟨?_, ?_, ?_⟩
  · intro label n
    induction n with
    | zero => intro input; rfl
    | succ n ih =>
      intro input
      simp only [stringPromptLoop]
      split
      · rfl
      · simp [ih]
  · intro label defv n
    induction n with
    | zero => intro input; rfl
    | succ n ih =>
      intro input
      simp only [yesNoPromptLoop]
      split
      · rfl
      · split
        · rfl
        · split
          · rfl
          · simp [ih]
  · intro label s ls n hs
    simp [passwordPromptLoop, readPassword, hs]

/-- Claim C7, witness for the password conjunct's hypothesis `s ≠ []`. -/
theorem c7_witness :
    (str "s" ≠ ([] : List Char)) ∧
    (passwordPromptLoop (str "pw") 1 (TermInput.tty [str "s"])).stdOut = ['\n'] :=
  ⟨by decide, c7_amended.2.2 (str "pw") (str "s") [] 0 (by decide)⟩

/-- Claim C8: `PasswordPrompt` returns any non-empty entered line
verbatim, with no trimming; in particular a secret of three spaces is
accepted as non-empty and returned unchanged, while `StringPrompt` on the
same three spaces (plus newline) trims them away and returns the empty
string. -/
theorem c8_verbatim (label s : List Char) (ls : List (List Char)) (n : Nat) (hs : s ≠ []) :
    (passwordPromptLoop label (n + 1) (TermInput.tty (s :: ls))).val = some s ∧
    (passwordPromptLoop label 1 (TermInput.tty [str "   "])).val = some (str "   ") ∧
    (stringPromptLoop label 1 (str "   \n")).val = some [] := by
  refine ⟨?_, rfl, rfl⟩
  simp [passwordPromptLoop, readPassword, hs]

/-- Claim C8, witness: the space-only secret `"   "` is returned
unchanged. -/
theorem c8_witness :
    (passwordPromptLoop (str "pw") 1 (TermInput.tty [str "   "])).val = some (str "   ") :=
  (c8_verbatim (str "pw") (str "   ") [] 0 (by decide)).1

/-- Claim C10: `Checkboxes` always returns a list — its return type has no
error — and when the collaborator fails, or succeeds selecting nothing,
the result handed to the caller is the empty list: the error is discarded,
never propagated. -/
theorem c10_error_discarded (label : List Char) (opts : List (List Char)) :
    Checkboxes label opts (fun _ _ => none) = [] ∧
    Checkboxes label opts (fun _ _ => some []) = [] :=
  ⟨rfl, rfl⟩

end CLIPrompts
